import Mathlib

/-!
# Analytics dashboard API: query construction and authentication

A shallow embedding of the request handlers of `src/api/index.js`:

* `GET  /api/bar-data`        is `barData`        (query built by `barQuery`),
* `GET  /api/line-chart-data` is `lineChartData`  (query built by `lineChartQuery`),
* `POST /api/signup`          is `signup`,
* `POST /api/login`           is `login`.

Each handler is a function of the request fields, of the store it talks to and of the
store's current state; it returns the HTTP response, the list of queries it handed to
`db.query` (in order), and the store's state afterwards.  The `try { ... } catch` of a
handler is the `.error` branch of the corresponding `match`.

Request fields (`req.query.*`, `req.body.*`) are modelled as `Option String`: `none` is
`undefined` (the key is absent), `some s` is the string `s` (the key is given once, with a
plain text value).
-/

namespace Dashboard

/-! ## Data model -/

/-- JavaScript values found in result rows and in response bodies. -/
inductive JsVal where
  | undefined
  | null
  | nan
  | num (n : Int)
  | str (s : String)
  | date (day : Int)
  deriving DecidableEq

/-- A result row of the driver: an object from column name to value. -/
abbrev Row := List (String × JsVal)

/-- Property access `row.key`; an absent key reads as `undefined`. -/
def Row.get (r : Row) (key : String) : JsVal :=
  match r.lookup key with
  | some v => v
  | none => JsVal.undefined

/-- What `db.query(text, params)` receives. The line-chart handler calls `db.query(text)`,
which is `params = []`. -/
structure Query where
  text : String
  params : List String
  deriving DecidableEq

/-- The store behind `db.query`: a query either throws or yields rows and the next state. -/
structure Db (σ : Type) where
  query : σ → Query → Except String (List Row × σ)

/-- The string and number built-ins of the JavaScript runtime used by the handlers. -/
structure Js where
  toUpperCase : String → String
  toLowerCase : String → String
  parseInt : JsVal → JsVal

/-- The `bcryptjs` and `jsonwebtoken` calls used by the handlers: `bcrypt.hash(p, 10)`,
`bcrypt.compare(p, stored)` and `jwt.sign({ id }, JWT_SECRET, { expiresIn: "1h" })`. -/
structure Crypto where
  hash : String → String
  compare : String → JsVal → Except String Bool
  sign : JsVal → Except String String

/-- One element of the line chart's `data` array. -/
structure Point where
  date : JsVal
  timeSpent : JsVal
  deriving DecidableEq

/-- Response bodies: `res.send(text)` and the JSON objects the handlers build. -/
inductive Body where
  | text (s : String)
  | message (m : String)
  | error (e : String)
  | bar (A B C D E F : JsVal)
  | line (feature : String) (data : List Point)
  deriving DecidableEq

/-- A cookie set with `res.cookie(name, value, { httpOnly, secure, path })`. -/
structure Cookie where
  name : String
  value : String
  httpOnly : Bool
  secure : Bool
  path : String
  deriving DecidableEq

/-- An HTTP response: status, body and the cookie set on it, if any. -/
structure Response where
  status : Nat
  body : Body
  cookie : Option Cookie
  deriving DecidableEq

/-- The result of running a handler: the response, the queries handed to the store in
order, and the store's state afterwards. -/
structure Outcome (σ : Type) where
  response : Response
  issued : List Query
  store : σ

/-! ## JavaScript helpers -/

/-- Truthiness test `if (x)` on a request field: `undefined` and `""` are falsy. Returns
the string when it is truthy. -/
def given : Option String → Option String
  | some s => if s = "" then none else some s
  | none => none

/-- The nullish coalescing `v ?? 0`. -/
def orZero : JsVal → JsVal
  | JsVal.undefined => JsVal.num 0
  | JsVal.null => JsVal.num 0
  | v => v

/-- The expression `gender[0].toUpperCase() + gender.slice(1)`. Indexing is by UTF-16 code
unit: for a first character outside the Basic Multilingual Plane `gender[0]` is a lone
surrogate, which upper-casing leaves alone, so the string comes back unchanged. On the
empty string `gender[0]` is `undefined` and the call throws. -/
def formatGender (js : Js) (gender : String) : Except String String :=
  match gender.data with
  | [] => Except.error "TypeError: Cannot read properties of undefined (reading 'toUpperCase')"
  | c :: rest =>
    if c.val < 0x10000 then
      Except.ok (js.toUpperCase (String.singleton c) ++ String.mk rest)
    else
      Except.ok (String.singleton c ++ String.mk rest)

/-! ## `GET /api/bar-data` -/

/-- The template literal the bar query starts from. -/
def barBase : String :=
  "\n      SELECT\n        SUM(\"a\") AS feature_A,\n        SUM(\"b\") AS feature_B,\n        SUM(\"c\") AS feature_C,\n        SUM(\"d\") AS feature_D,\n        SUM(\"e\") AS feature_E,\n        SUM(\"f\") AS feature_F\n      FROM \"analytics\"\n      WHERE 1=1\n    "

/-- The query text and parameter list built by the bar handler (lines 36-64). -/
def barQuery (js : Js) (age gender startDate endDate : Option String) : Except String Query := do
  let q : Query := ⟨barBase, []⟩
  let q : Query :=
    match given age with
    | some a => ⟨q.text ++ " AND \"age\" = $" ++ toString (q.params.length + 1), q.params ++ [a]⟩
    | none => q
  let q : Query ←
    match given gender with
    | some g => do
      let text := q.text ++ " AND \"gender\" = $" ++ toString (q.params.length + 1)
      let formattedGender ← formatGender js g
      pure ⟨text, q.params ++ [formattedGender]⟩
    | none => pure q
  let q : Query :=
    match given startDate, given endDate with
    | some sd, some ed =>
      ⟨q.text ++ " AND \"day\" BETWEEN $" ++ toString (q.params.length + 1) ++ " AND $"
        ++ toString (q.params.length + 2), q.params ++ [sd, ed]⟩
    | _, _ => q
  pure q

/-- The response of a `catch` branch of the bar handler. -/
def barError : Response := ⟨500, Body.text "Internal Server Error", none⟩

/-- The bar handler (lines 34-81). -/
def barData {σ : Type} (js : Js) (db : Db σ) (s : σ)
    (age gender startDate endDate : Option String) : Outcome σ :=
  match barQuery js age gender startDate endDate with
  | Except.error _ => ⟨barError, [], s⟩
  | Except.ok q =>
    match db.query s q with
    | Except.error _ => ⟨barError, [q], s⟩
    | Except.ok (rows, s1) =>
      match rows with
      | [] => ⟨barError, [q], s1⟩
      | r :: _ =>
        ⟨⟨200, Body.bar (orZero (r.get "feature_a")) (orZero (r.get "feature_b"))
            (orZero (r.get "feature_c")) (orZero (r.get "feature_d"))
            (orZero (r.get "feature_e")) (orZero (r.get "feature_f")), none⟩, [q], s1⟩

/-! ## `GET /api/line-chart-data` -/

/-- The query text built by the line-chart handler for a truthy `feature` (lines 95-121);
no parameter list is passed to the store. -/
def lineChartQuery (js : Js) (feature : String) (age gender startDate endDate : Option String) :
    Except String Query := do
  let query : String :=
    "\n      SELECT day AS date, SUM(\"" ++ js.toLowerCase feature
      ++ "\") AS timeSpent\n      FROM analytics\n      WHERE 1=1\n    "
  let query : String :=
    match given age with
    | some a => query ++ " AND \"age\" = '" ++ a ++ "' "
    | none => query
  let query : String ←
    match given gender with
    | some g => do
      let formattedGender ← formatGender js g
      pure (query ++ " AND \"gender\" = '" ++ formattedGender ++ "' ")
    | none => pure query
  let query : String :=
    match given startDate, given endDate with
    | some sd, some ed => query ++ " AND \"day\" BETWEEN '" ++ sd ++ "' AND '" ++ ed ++ "' "
    | some sd, none => query ++ " AND \"day\" >= '" ++ sd ++ "' "
    | none, some ed => query ++ " AND \"day\" <= '" ++ ed ++ "' "
    | none, none => query
  let query : String := query ++ "GROUP BY \"day\" ORDER BY \"day\" ASC;"
  pure ⟨query, []⟩

/-- The response of the `catch` branch of the line-chart handler. -/
def lineError : Response := ⟨500, Body.error "Internal Server Error", none⟩

/-- The line-chart handler (lines 84-145). -/
def lineChartData {σ : Type} (js : Js) (db : Db σ) (s : σ)
    (feature age gender startDate endDate : Option String) : Outcome σ :=
  match given feature with
  | none => ⟨⟨400, Body.error "Missing required 'feature' query parameter", none⟩, [], s⟩
  | some f =>
    match lineChartQuery js f age gender startDate endDate with
    | Except.error _ => ⟨lineError, [], s⟩
    | Except.ok q =>
      match db.query s q with
      | Except.error _ => ⟨lineError, [q], s⟩
      | Except.ok (rows, s1) =>
        if rows.length = 0 then
          ⟨⟨404, Body.message "No data found for the given parameters", none⟩, [q], s1⟩
        else
          ⟨⟨200, Body.line f
              (rows.map fun row => ⟨row.get "date", js.parseInt (row.get "timespent")⟩), none⟩,
            [q], s1⟩

/-! ## `POST /api/signup` and `POST /api/login` -/

/-- The response of the `catch` branch of the two authentication handlers. -/
def authError : Response := ⟨500, Body.message "Internal server error.", none⟩

/-- The response to a request without a truthy username or password. -/
def fieldsRequired : Response := ⟨400, Body.message "Username and password are required.", none⟩

/-- The lookup both authentication handlers start with. -/
def selectUser (username : String) : Query :=
  ⟨"SELECT * FROM users WHERE username = $1", [username]⟩

/-- The insert issued by sign-up. -/
def insertUser (username hashedPassword : String) : Query :=
  ⟨"INSERT INTO users (username, password) VALUES ($1, $2)", [username, hashedPassword]⟩

/-- The sign-up handler (lines 147-181). -/
def signup {σ : Type} (cr : Crypto) (db : Db σ) (s : σ) (username password : Option String) :
    Outcome σ :=
  match given username, given password with
  | some u, some p =>
    match db.query s (selectUser u) with
    | Except.error _ => ⟨authError, [selectUser u], s⟩
    | Except.ok (rows, s1) =>
      if rows.length > 0 then
        ⟨⟨400, Body.message "Username already exists.", none⟩, [selectUser u], s1⟩
      else
        let hashedPassword := cr.hash p
        match db.query s1 (insertUser u hashedPassword) with
        | Except.error _ => ⟨authError, [selectUser u, insertUser u hashedPassword], s1⟩
        | Except.ok (_, s2) =>
          ⟨⟨201, Body.message "User registered successfully.", none⟩,
            [selectUser u, insertUser u hashedPassword], s2⟩
  | _, _ => ⟨fieldsRequired, [], s⟩

/-- The response to a login with an unknown username or a wrong password. -/
def invalidCredentials : Response := ⟨400, Body.message "Invalid credentials.", none⟩

/-- The login handler (lines 183-224). -/
def login {σ : Type} (cr : Crypto) (db : Db σ) (s : σ) (username password : Option String) :
    Outcome σ :=
  match given username, given password with
  | some u, some p =>
    match db.query s (selectUser u) with
    | Except.error _ => ⟨authError, [selectUser u], s⟩
    | Except.ok (rows, s1) =>
      match rows with
      | [] => ⟨invalidCredentials, [selectUser u], s1⟩
      | row :: _ =>
        match cr.compare p (row.get "password") with
        | Except.error _ => ⟨authError, [selectUser u], s1⟩
        | Except.ok false => ⟨invalidCredentials, [selectUser u], s1⟩
        | Except.ok true =>
          match cr.sign (row.get "id") with
          | Except.error _ => ⟨authError, [selectUser u], s1⟩
          | Except.ok token =>
            ⟨⟨200, Body.message "Login successful.", some ⟨"token", token, true, false, "/"⟩⟩,
              [selectUser u], s1⟩
  | _, _ => ⟨fieldsRequired, [], s⟩

/-! ## Stores and runtimes used to run the handlers on concrete requests -/

/-- The runtime built-ins on ASCII text: case mapping of the letters `a`-`z` and `A`-`Z`,
and `parseInt` of an integer or of a string of decimal digits. On such inputs they agree
with `String.prototype.toUpperCase`, `String.prototype.toLowerCase` and `parseInt(v, 10)`. -/
def asciiJs : Js where
  toUpperCase := fun s => String.mk (s.data.map Char.toUpper)
  toLowerCase := fun s => String.mk (s.data.map Char.toLower)
  parseInt := fun v =>
    match v with
    | JsVal.num n => JsVal.num n
    | JsVal.str s =>
      if s.data ≠ [] ∧ s.data.all Char.isDigit = true then
        JsVal.num (s.data.foldl (fun n c => 10 * n + (c.toNat - 48)) 0)
      else JsVal.nan
    | _ => JsVal.nan

/-- A stand-in for `bcryptjs` and `jsonwebtoken` with the same interface: the hash of `p`
is `"bcrypt:" ++ p`, a comparison against anything but a string throws, and the token of
a user is a fixed string. -/
def plainCrypto : Crypto where
  hash := fun p => "bcrypt:" ++ p
  compare := fun p stored =>
    match stored with
    | JsVal.str h => Except.ok (decide (h = "bcrypt:" ++ p))
    | _ => Except.error "Illegal arguments"
  sign := fun _ => Except.ok "jwt"

/-- A store that answers every query with the same rows. -/
def fixedDb (rows : List Row) : Db Unit where
  query := fun s _ => Except.ok (rows, s)

/-- A store whose every query throws. -/
def failingDb : Db Unit where
  query := fun _ _ => Except.error "connection refused"

/-- A record of the `users` table. -/
structure User where
  id : Nat
  username : String
  password : String
  deriving DecidableEq

/-- The row the driver returns for a user record. -/
def User.row (u : User) : Row :=
  [("id", JsVal.num u.id), ("username", JsVal.str u.username), ("password", JsVal.str u.password)]

/-- An identifier not used by any record of the table. -/
def freshId (users : List User) : Nat :=
  (users.map User.id).foldr max 0 + 1

/-- Modelled from the spec: the store behind `./db` restricted to the `users` table, as a
list of user records (section 3: a user is an id generated by the store, a username and a
password hash; records are created on sign-up and never changed or deleted). It answers
the two statements the authentication handlers issue and throws on any other. -/
def memDb : Db (List User) where
  query := fun users q =>
    if q.text = "SELECT * FROM users WHERE username = $1" then
      match q.params with
      | [u] => Except.ok ((users.filter fun r => r.username = u).map User.row, users)
      | _ => Except.error "bind message supplies the wrong number of parameters"
    else if q.text = "INSERT INTO users (username, password) VALUES ($1, $2)" then
      match q.params with
      | [u, h] => Except.ok ([], users ++ [⟨freshId users, u, h⟩])
      | _ => Except.error "bind message supplies the wrong number of parameters"
    else Except.error "statement not supported"

/-! ## Reading a query text back -/

/-- State of the scan of a query text. -/
structure Scan where
  /-- Characters read so far of the double-quoted identifier being read, if any. -/
  quoted : Option (List Char)
  /-- The last double-quoted identifier read completely. -/
  column : String
  /-- Digits read so far after a `$`, if a placeholder is being read. -/
  digits : Option (List Char)
  /-- The placeholders read so far, each with the identifier that precedes it. -/
  sites : List (String × Nat)

/-- The number written by a list of decimal digits. -/
def decimal (ds : List Char) : Nat :=
  ds.foldl (fun n c => 10 * n + (c.toNat - 48)) 0

/-- End of a run of digits: a `$` followed by at least one digit is a placeholder. -/
def Scan.flush (st : Scan) : Scan :=
  match st.digits with
  | some (d :: ds) =>
    { st with digits := none, sites := st.sites ++ [(st.column, decimal (d :: ds))] }
  | _ => { st with digits := none }

/-- A character outside identifiers and placeholders. -/
def Scan.plain (st : Scan) (c : Char) : Scan :=
  if c = '$' then { st with digits := some [] }
  else if c = '"' then { st with quoted := some [] }
  else st

/-- One character of the scan. -/
def Scan.step (st : Scan) (c : Char) : Scan :=
  match st.quoted with
  | some cs =>
    if c = '"' then { st with quoted := none, column := String.mk cs }
    else { st with quoted := some (cs ++ [c]) }
  | none =>
    match st.digits with
    | some ds => if c.isDigit then { st with digits := some (ds ++ [c]) } else st.flush.plain c
    | none => st.plain c

/-- The placeholders `$k` of a query text in order of appearance, each with the
double-quoted column name that precedes it: the column the placeholder is compared to. -/
def placeholderSites (text : String) : List (String × Nat) :=
  (text.data.foldl Scan.step ⟨none, "", none, []⟩).flush.sites

/-- The text of the bar query when the age filter (`a`), the gender filter (`g`) and the
date range (`d`) are applied or not. -/
def barText (a g d : Bool) : String :=
  let ta := if a then barBase ++ " AND \"age\" = $" ++ toString 1 else barBase
  let na := if a then 1 else 0
  let tg := if g then ta ++ " AND \"gender\" = $" ++ toString (na + 1) else ta
  let ng := if g then na + 1 else na
  if d then tg ++ " AND \"day\" BETWEEN $" ++ toString (ng + 1) ++ " AND $" ++ toString (ng + 2)
  else tg

/-- The values the bar handler binds, in order: age, the formatted gender, the two dates. -/
def barValues (js : Js) (age gender startDate endDate : Option String) :
    List (String × Option String) :=
  (match given age with
    | some a => [("age", some a)]
    | none => [])
  ++ (match given gender with
    | some g => [("gender", (formatGender js g).toOption)]
    | none => [])
  ++ (match given startDate, given endDate with
    | some sd, some ed => [("day", some sd), ("day", some ed)]
    | _, _ => [])

/-- Which filters the bar handler applies to a request: age, gender, date range. -/
def barApplied (age gender startDate endDate : Option String) : Bool × Bool × Bool :=
  ((given age).isSome, (given gender).isSome, (given startDate).isSome && (given endDate).isSome)

/-- The text the line-chart handler has built when it reaches the date range: the
`SELECT` for the lower-cased feature, then the age and gender predicates. -/
def lineHead (js : Js) (feature : String) (age gender : Option String) : String :=
  "\n      SELECT day AS date, SUM(\"" ++ js.toLowerCase feature
    ++ "\") AS timeSpent\n      FROM analytics\n      WHERE 1=1\n    "
  ++ (match given age with
    | some a => " AND \"age\" = '" ++ a ++ "' "
    | none => "")
  ++ (match given gender with
    | some g =>
      match formatGender js g with
      | Except.ok v => " AND \"gender\" = '" ++ v ++ "' "
      | Except.error _ => ""
    | none => "")

/-- The end of every line-chart query. -/
def lineTail : String := "GROUP BY \"day\" ORDER BY \"day\" ASC;"

/-- The date predicate the specification prescribes for the line chart, a date being given
when it is a non-empty string: inclusive-between when both dates are given, one-sided
when one is, none when neither is. -/
def specDateClause (startDate endDate : Option String) : String :=
  if (given startDate).isSome ∧ (given endDate).isSome then
    " AND \"day\" BETWEEN '" ++ startDate.getD "" ++ "' AND '" ++ endDate.getD "" ++ "' "
  else if (given startDate).isSome then " AND \"day\" >= '" ++ startDate.getD "" ++ "' "
  else if (given endDate).isSome then " AND \"day\" <= '" ++ endDate.getD "" ++ "' "
  else ""

/-- Order of two row dates: both are dates and the first is the earlier day. -/
def dateLt : JsVal → JsVal → Prop
  | JsVal.date a, JsVal.date b => a < b
  | _, _ => False

instance : DecidableRel dateLt := fun a b => by
  cases a <;> cases b <;> simp only [dateLt] <;> infer_instance

/-- The feature is one of the six measures `A`..`F`, compared case-insensitively. -/
def isMeasure (js : Js) (feature : String) : Prop :=
  js.toLowerCase feature ∈ ["a", "b", "c", "d", "e", "f"]

instance (js : Js) (feature : String) : Decidable (isMeasure js feature) := by
  unfold isMeasure; infer_instance

/-! ## Reading the predicates of a query text back -/

/-- The single quote, which opens and closes a string literal in SQL. -/
def singleQuote : Char := Char.ofNat 39

/-- The double quote, which opens and closes a quoted identifier in SQL. -/
def doubleQuote : Char := Char.ofNat 34

/-- The lexical elements of a query text: a word (a maximal run of characters without
white space or quotes), a double-quoted identifier, a single-quoted string literal. -/
inductive Token where
  | word (s : String)
  | ident (s : String)
  | lit (s : String)
  deriving DecidableEq

/-- Where the reader is: in a word, in a quoted identifier or in a string literal, with
the characters of it read so far. -/
inductive Mode where
  | word (cs : List Char)
  | ident (cs : List Char)
  | lit (cs : List Char)

/-- The word read so far, if any, as a token. -/
def flushWord (cs : List Char) : List Token :=
  if cs = [] then [] else [Token.word (String.mk cs)]

/-- The tokens of a text read from a given mode. A quoted identifier runs to the next
double quote and a string literal to the next single quote, whatever is in between. -/
def lex : Mode → List Char → List Token
  | Mode.word cs, [] => flushWord cs
  | Mode.ident _, [] => []
  | Mode.lit _, [] => []
  | Mode.word cs, c :: rest =>
    if c = doubleQuote then flushWord cs ++ lex (Mode.ident []) rest
    else if c = singleQuote then flushWord cs ++ lex (Mode.lit []) rest
    else if c.isWhitespace then flushWord cs ++ lex (Mode.word []) rest
    else lex (Mode.word (cs ++ [c])) rest
  | Mode.ident cs, c :: rest =>
    if c = doubleQuote then Token.ident (String.mk cs) :: lex (Mode.word []) rest
    else lex (Mode.ident (cs ++ [c])) rest
  | Mode.lit cs, c :: rest =>
    if c = singleQuote then Token.lit (String.mk cs) :: lex (Mode.word []) rest
    else lex (Mode.lit (cs ++ [c])) rest

/-- The tokens of a query text. -/
def tokens (text : String) : List Token := lex (Mode.word []) text.data

/-- A predicate on the column `day`: inclusive between two literals, at least a literal,
at most a literal, or any other comparison. -/
inductive DayPredicate where
  | between (a b : String)
  | atLeast (a : String)
  | atMost (b : String)
  | other (op : String)
  deriving DecidableEq

/-- The token names the column `day`, quoted or not. -/
def isDay : Token → Bool
  | Token.ident s => s = "day"
  | Token.word s => s = "day"
  | Token.lit _ => false

/-- The words that start a comparison. -/
def comparisonWords : List String :=
  ["BETWEEN", ">=", "<=", "=", "<", ">", "<>", "!=", "IN", "LIKE", "IS", "NOT"]

/-- The predicate, if any, that the tokens following the column `day` make with it. -/
def classify : List Token → List DayPredicate
  | Token.word "BETWEEN" :: Token.lit a :: Token.word "AND" :: Token.lit b :: _ =>
    [DayPredicate.between a b]
  | Token.word ">=" :: Token.lit a :: _ => [DayPredicate.atLeast a]
  | Token.word "<=" :: Token.lit b :: _ => [DayPredicate.atMost b]
  | Token.word op :: _ => if op ∈ comparisonWords then [DayPredicate.other op] else []
  | _ => []

/-- The predicates on the column `day` in a list of tokens, in order of appearance. -/
def dayPredicates : List Token → List DayPredicate
  | [] => []
  | t :: rest => (if isDay t then classify rest else []) ++ dayPredicates rest

/-- No value of the request can close the quotes it is written between: the lower-cased
feature has no double quote, the age and the formatted gender have no single quote. -/
def quoteFree (js : Js) (feature : String) (age gender : Option String) : Prop :=
  doubleQuote ∉ (js.toLowerCase feature).data
  ∧ (∀ a, given age = some a → singleQuote ∉ a.data)
  ∧ (∀ g v, given gender = some g → formatGender js g = Except.ok v → singleQuote ∉ v.data)

/-- A piece of query text that is read from between two words to between two words and
whose tokens make no predicate on `day`, whatever follows them. -/
def dayFree (piece : String) : Prop :=
  ∃ T, (∀ rest, lex (Mode.word []) (piece.data ++ rest) = T ++ lex (Mode.word []) rest)
    ∧ ∀ ys, dayPredicates (T ++ ys) = dayPredicates ys

/-! ## Basic facts -/

theorem given_some_iff {o : Option String} {s : String} :
    given o = some s ↔ o = some s ∧ s ≠ "" := by
  cases o with
  | none => simp [given]
  | some t =>
    by_cases h : t = ""
    · subst h
      simp [given]
      intro h1
      exact h1.symm
    · simp only [given, h, if_false, Option.some.injEq]
      constructor
      · intro e; subst e; exact ⟨rfl, h⟩
      · intro e; exact e.1

theorem given_none_iff {o : Option String} :
    given o = none ↔ o = none ∨ o = some "" := by
  cases o with
  | none => simp [given]
  | some t =>
    by_cases h : t = ""
    · subst h; simp [given]
    · simp [given, h]

theorem given_of_ne {s : String} (h : s ≠ "") : given (some s) = some s := by
  simp [given, h]

theorem formatGender_ok (js : Js) {g : String} (h : g ≠ "") :
    ∃ v, formatGender js g = Except.ok v := by
  unfold formatGender
  cases hd : g.data with
  | nil =>
    exfalso
    apply h
    cases g
    simp_all
  | cons c rest =>
    by_cases hc : c.val < 0x10000
    · exact ⟨js.toUpperCase (String.singleton c) ++ String.mk rest, by simp [hc]⟩
    · exact ⟨String.singleton c ++ String.mk rest, by simp [hc]⟩

set_option maxRecDepth 100000 in
theorem placeholderSites_barText (a g d : Bool) :
    placeholderSites (barText a g d)
      = (if a then [("age", 1)] else [])
        ++ (if g then [("gender", (if a then 1 else 0) + 1)] else [])
        ++ (if d then [("day", (if a then 1 else 0) + (if g then 1 else 0) + 1),
                       ("day", (if a then 1 else 0) + (if g then 1 else 0) + 2)] else []) := by
  cases a <;> cases g <;> cases d <;> decide

theorem barQuery_ok (js : Js) (age gender startDate endDate : Option String) :
    ∃ params, barQuery js age gender startDate endDate
      = Except.ok ⟨barText (given age).isSome (given gender).isSome
          ((given startDate).isSome && (given endDate).isSome), params⟩
      ∧ (placeholderSites (barText (given age).isSome (given gender).isSome
            ((given startDate).isSome && (given endDate).isSome))).map
          (fun site => (site.1, params[site.2 - 1]?))
        = barValues js age gender startDate endDate
      ∧ (placeholderSites (barText (given age).isSome (given gender).isSome
            ((given startDate).isSome && (given endDate).isSome))).map Prod.snd
        = List.range' 1 params.length := by
  simp only [placeholderSites_barText]
  cases hg : given gender with
  | none =>
    cases ha : given age <;> cases hs : given startDate <;> cases he : given endDate <;>
      exact ⟨_, by simp only [barQuery, ha, hg, hs, he]; rfl,
        by simp [barValues, ha, hg, hs, he], by simp [List.range']⟩
  | some g =>
    obtain ⟨v, hv⟩ := formatGender_ok js (given_some_iff.1 hg).2
    cases ha : given age <;> cases hs : given startDate <;> cases he : given endDate <;>
      exact ⟨_, by simp only [barQuery, ha, hg, hs, he, hv]; rfl,
        by simp [barValues, ha, hg, hs, he, hv, Except.toOption], by simp [List.range']⟩

/-! ## The bar handler -/

/-- C2: the bar handler binds every filter value. For every request the query is built
without throwing; its text is the same for every request that applies the same filters,
whatever their values; the placeholders of the text are `$1`, ..., `$n` in order of
appearance, `n` being the number of parameters; and the parameter at position `k` is the
value of the filter whose column is compared to `$k`: the age, the formatted gender, the
start date and the end date. -/
theorem bar_query_binds_every_filter_value (js : Js)
    (age gender startDate endDate : Option String) :
    ∃ q, barQuery js age gender startDate endDate = Except.ok q
      ∧ (∀ (js2 : Js) (age2 gender2 startDate2 endDate2 : Option String),
          barApplied age2 gender2 startDate2 endDate2 = barApplied age gender startDate endDate →
          ∃ q2, barQuery js2 age2 gender2 startDate2 endDate2 = Except.ok q2 ∧ q2.text = q.text)
      ∧ (placeholderSites q.text).map Prod.snd = List.range' 1 q.params.length
      ∧ (placeholderSites q.text).map (fun site => (site.1, q.params[site.2 - 1]?))
          = barValues js age gender startDate endDate := by
  obtain ⟨params, hq, hvalues, hsites⟩ := barQuery_ok js age gender startDate endDate
  refine ⟨_, hq, ?_, hsites, hvalues⟩
  intro js2 age2 gender2 startDate2 endDate2 happ
  obtain ⟨params2, hq2, -, -⟩ := barQuery_ok js2 age2 gender2 startDate2 endDate2
  refine ⟨_, hq2, ?_⟩
  simp only [barApplied, Prod.mk.injEq] at happ
  simp only [happ.1, happ.2.1, happ.2.2]

/-- C2, on a request: two requests with all four filters and different values get the same
text, with placeholders `$1`..`$4`. -/
theorem bar_query_binds_every_filter_value_witness :
    ∃ q q2, barQuery asciiJs (some "15-25") (some "male") (some "2022-10-04") (some "2022-10-10")
        = Except.ok q
      ∧ barQuery asciiJs (some "x' OR '1'='1") (some "female") (some "a") (some "b")
        = Except.ok q2
      ∧ q2.text = q.text
      ∧ (placeholderSites q.text).map Prod.snd = List.range' 1 q.params.length := by
  obtain ⟨q, hq, hsame, hsites, -⟩ := bar_query_binds_every_filter_value asciiJs
    (some "15-25") (some "male") (some "2022-10-04") (some "2022-10-10")
  obtain ⟨q2, hq2, htext⟩ := hsame asciiJs (some "x' OR '1'='1") (some "female") (some "a")
    (some "b") (by decide)
  exact ⟨q, q2, hq, hq2, htext, hsites⟩

/-- C7: the bar query is always built, and when the store answers it with a first row (an
aggregate without `GROUP BY` yields one row, also over an empty table) the response is 200
with the six fields `A`..`F`; none of them is `null` or `undefined`; each is the aggregate
of the first row when that is present, and `0` when it is `null` or `undefined`. -/
theorem bar_response_defaults_to_zero {σ : Type} (js : Js) (db : Db σ) (s : σ)
    (age gender startDate endDate : Option String) :
    ∃ q, barQuery js age gender startDate endDate = Except.ok q
      ∧ ∀ (r : Row) (rs : List Row) (s1 : σ), db.query s q = Except.ok (r :: rs, s1) →
        ∃ A B C D E F,
          (barData js db s age gender startDate endDate).response
            = ⟨200, Body.bar A B C D E F, none⟩
          ∧ ∀ field ∈ [("feature_a", A), ("feature_b", B), ("feature_c", C), ("feature_d", D),
                ("feature_e", E), ("feature_f", F)],
              field.2 ≠ JsVal.null ∧ field.2 ≠ JsVal.undefined
              ∧ (r.get field.1 = JsVal.null ∨ r.get field.1 = JsVal.undefined →
                  field.2 = JsVal.num 0)
              ∧ (r.get field.1 ≠ JsVal.null → r.get field.1 ≠ JsVal.undefined →
                  field.2 = r.get field.1) := by
  have key : ∀ v : JsVal, orZero v ≠ JsVal.null ∧ orZero v ≠ JsVal.undefined
      ∧ (v = JsVal.null ∨ v = JsVal.undefined → orZero v = JsVal.num 0)
      ∧ (v ≠ JsVal.null → v ≠ JsVal.undefined → orZero v = v) := by
    intro v
    cases v <;> simp [orZero]
  obtain ⟨params, hq, -, -⟩ := barQuery_ok js age gender startDate endDate
  refine ⟨_, hq, ?_⟩
  intro r rs s1 hdb
  refine ⟨orZero (r.get "feature_a"), orZero (r.get "feature_b"), orZero (r.get "feature_c"),
    orZero (r.get "feature_d"), orZero (r.get "feature_e"), orZero (r.get "feature_f"),
    by simp only [barData, hq, hdb], ?_⟩
  intro field hfield
  simp only [List.mem_cons, List.mem_singleton, List.not_mem_nil, or_false] at hfield
  rcases hfield with h | h | h | h | h | h <;> subst h <;> exact key _

/-- C7, on a request: over an empty table every aggregate is `null`, the row does not even
carry `feature_f`, and the fields `A` and `F` of the response are `0`. -/
theorem bar_response_defaults_to_zero_witness :
    ∃ A B C D E F,
      (barData asciiJs (fixedDb [[("feature_a", JsVal.null), ("feature_b", JsVal.null),
          ("feature_c", JsVal.null), ("feature_d", JsVal.null), ("feature_e", JsVal.null)]])
          () none none none none).response
        = ⟨200, Body.bar A B C D E F, none⟩
      ∧ A = JsVal.num 0 ∧ F = JsVal.num 0 := by
  obtain ⟨q, -, hrow⟩ := bar_response_defaults_to_zero asciiJs
    (fixedDb [[("feature_a", JsVal.null), ("feature_b", JsVal.null),
      ("feature_c", JsVal.null), ("feature_d", JsVal.null), ("feature_e", JsVal.null)]])
    () none none none none
  obtain ⟨A, B, C, D, E, F, hresp, hfields⟩ := hrow _ [] () rfl
  exact ⟨A, B, C, D, E, F, hresp,
    (hfields ("feature_a", A) (by simp)).2.2.1 (Or.inl rfl),
    (hfields ("feature_f", F) (by simp)).2.2.1 (Or.inr rfl)⟩

/-! ## The line-chart handler -/

theorem given_cases (o : Option String) :
    given o = none ∨ ∃ x, o = some x ∧ x ≠ "" ∧ given (some x) = some x := by
  cases h : given o with
  | none => exact Or.inl rfl
  | some x =>
    obtain ⟨h1, h2⟩ := given_some_iff.1 h
    exact Or.inr ⟨x, h1, h2, given_of_ne h2⟩

theorem lineChartQuery_ok (js : Js) (feature : String)
    (age gender startDate endDate : Option String) :
    lineChartQuery js feature age gender startDate endDate
      = Except.ok ⟨lineHead js feature age gender ++ specDateClause startDate endDate ++ lineTail,
          []⟩ := by
  rcases given_cases gender with hg | ⟨g, rfl, hgne, hg⟩
  · rcases given_cases age with ha | ⟨a, rfl, -, ha⟩ <;>
    rcases given_cases startDate with hsd | ⟨sd, rfl, -, hsd⟩ <;>
    rcases given_cases endDate with hed | ⟨ed, rfl, -, hed⟩ <;>
    simp [lineChartQuery, lineHead, specDateClause, lineTail, ha, hg, hsd, hed,
        String.append_assoc] <;> rfl
  · obtain ⟨v, hv⟩ := formatGender_ok js hgne
    rcases given_cases age with ha | ⟨a, rfl, -, ha⟩ <;>
    rcases given_cases startDate with hsd | ⟨sd, rfl, -, hsd⟩ <;>
    rcases given_cases endDate with hed | ⟨ed, rfl, -, hed⟩ <;>
    simp [lineChartQuery, lineHead, specDateClause, lineTail, ha, hg, hsd, hed, hv,
        String.append_assoc] <;> rfl

theorem lineChartData_of_query {σ : Type} (js : Js) (db : Db σ) (s : σ) (f : String)
    (age gender startDate endDate : Option String) (hf : f ≠ "") :
    lineChartData js db s (some f) age gender startDate endDate
      = match db.query s ⟨lineHead js f age gender ++ specDateClause startDate endDate
            ++ lineTail, []⟩ with
        | Except.error _ =>
          ⟨lineError, [⟨lineHead js f age gender ++ specDateClause startDate endDate
            ++ lineTail, []⟩], s⟩
        | Except.ok (rows, s1) =>
          if rows.length = 0 then
            ⟨⟨404, Body.message "No data found for the given parameters", none⟩,
              [⟨lineHead js f age gender ++ specDateClause startDate endDate ++ lineTail, []⟩],
              s1⟩
          else
            ⟨⟨200, Body.line f
                (rows.map fun row => ⟨row.get "date", js.parseInt (row.get "timespent")⟩),
                none⟩,
              [⟨lineHead js f age gender ++ specDateClause startDate endDate ++ lineTail, []⟩],
              s1⟩ := by
  simp only [lineChartData, given_of_ne hf, lineChartQuery_ok]

theorem lex_lit (v : List Char) (h : singleQuote ∉ v) (cs rest : List Char) :
    lex (Mode.lit cs) (v ++ singleQuote :: rest)
      = Token.lit (String.mk (cs ++ v)) :: lex (Mode.word []) rest := by
  induction v generalizing cs with
  | nil => simp [lex]
  | cons c v ih =>
    have hc : c ≠ singleQuote := fun e => h (by simp [e])
    have hv : singleQuote ∉ v := fun e => h (by simp [e])
    simp [lex, hc, ih hv]

theorem lex_ident (v : List Char) (h : doubleQuote ∉ v) (cs rest : List Char) :
    lex (Mode.ident cs) (v ++ doubleQuote :: rest)
      = Token.ident (String.mk (cs ++ v)) :: lex (Mode.word []) rest := by
  induction v generalizing cs with
  | nil => simp [lex]
  | cons c v ih =>
    have hc : c ≠ doubleQuote := fun e => h (by simp [e])
    have hv : doubleQuote ∉ v := fun e => h (by simp [e])
    simp [lex, hc, ih hv]

theorem lex_lit_end (v : String) (h : singleQuote ∉ v.data) (rest : List Char) :
    lex (Mode.lit []) (v.data ++ ("' ".data ++ rest))
      = Token.lit v :: lex (Mode.word []) rest := by
  have e : "' ".data ++ rest = singleQuote :: Char.ofNat 32 :: rest := rfl
  rw [e, lex_lit v.data h]
  rfl

theorem lex_lit_and (v : String) (h : singleQuote ∉ v.data) (rest : List Char) :
    lex (Mode.lit []) (v.data ++ ("' AND '".data ++ rest))
      = Token.lit v :: Token.word "AND" :: lex (Mode.lit []) rest := by
  have e : "' AND '".data ++ rest = singleQuote :: (" AND '".data ++ rest) := rfl
  rw [e, lex_lit v.data h]
  rfl

theorem dayFree_empty : dayFree "" :=
  ⟨[], fun _ => rfl, fun _ => rfl⟩

theorem dayFree_append {F G : String} (hF : dayFree F) (hG : dayFree G) : dayFree (F ++ G) := by
  obtain ⟨T, hT, hTd⟩ := hF
  obtain ⟨U, hU, hUd⟩ := hG
  refine ⟨T ++ U, ?_, ?_⟩
  · intro rest
    rw [String.data_append, List.append_assoc, hT, hU, List.append_assoc]
  · intro ys
    rw [List.append_assoc, hTd, hUd]

set_option maxRecDepth 100000 in
theorem dayFree_select (lf : String) (h : doubleQuote ∉ lf.data) :
    dayFree ("\n      SELECT day AS date, SUM(\"" ++ lf
      ++ "\") AS timeSpent\n      FROM analytics\n      WHERE 1=1\n    ") := by
  refine ⟨[Token.word "SELECT", Token.word "day", Token.word "AS", Token.word "date,",
    Token.word "SUM(", Token.ident lf, Token.word ")", Token.word "AS", Token.word "timeSpent",
    Token.word "FROM", Token.word "analytics", Token.word "WHERE", Token.word "1=1"], ?_, ?_⟩
  · intro rest
    have e1 : ∀ X, lex (Mode.word []) ("\n      SELECT day AS date, SUM(\"".data ++ X)
        = [Token.word "SELECT", Token.word "day", Token.word "AS", Token.word "date,",
            Token.word "SUM("] ++ lex (Mode.ident []) X := fun _ => rfl
    have e2 : "\") AS timeSpent\n      FROM analytics\n      WHERE 1=1\n    ".data ++ rest
        = doubleQuote
          :: (") AS timeSpent\n      FROM analytics\n      WHERE 1=1\n    ".data ++ rest) := rfl
    have e3 : lex (Mode.word [])
          (") AS timeSpent\n      FROM analytics\n      WHERE 1=1\n    ".data ++ rest)
        = [Token.word ")", Token.word "AS", Token.word "timeSpent", Token.word "FROM",
            Token.word "analytics", Token.word "WHERE", Token.word "1=1"]
          ++ lex (Mode.word []) rest := rfl
    rw [String.data_append, String.data_append, List.append_assoc, List.append_assoc, e1, e2,
      lex_ident lf.data h, e3]
    rfl
  · intro ys
    by_cases hday : lf = "day"
    · subst hday
      rfl
    · simp [dayPredicates, isDay, classify, hday, comparisonWords]

theorem dayFree_age (a : String) (h : singleQuote ∉ a.data) :
    dayFree (" AND \"age\" = '" ++ a ++ "' ") := by
  refine ⟨[Token.word "AND", Token.ident "age", Token.word "=", Token.lit a], ?_, fun _ => rfl⟩
  intro rest
  have e1 : ∀ X, lex (Mode.word []) (" AND \"age\" = '".data ++ X)
      = [Token.word "AND", Token.ident "age", Token.word "="] ++ lex (Mode.lit []) X :=
    fun _ => rfl
  rw [String.data_append, String.data_append, List.append_assoc, List.append_assoc, e1,
    lex_lit_end a h]
  rfl

theorem dayFree_gender (v : String) (h : singleQuote ∉ v.data) :
    dayFree (" AND \"gender\" = '" ++ v ++ "' ") := by
  refine ⟨[Token.word "AND", Token.ident "gender", Token.word "=", Token.lit v], ?_,
    fun _ => rfl⟩
  intro rest
  have e1 : ∀ X, lex (Mode.word []) (" AND \"gender\" = '".data ++ X)
      = [Token.word "AND", Token.ident "gender", Token.word "="] ++ lex (Mode.lit []) X :=
    fun _ => rfl
  rw [String.data_append, String.data_append, List.append_assoc, List.append_assoc, e1,
    lex_lit_end v h]
  rfl

theorem dayFree_lineHead (js : Js) (feature : String) (age gender : Option String)
    (hq : quoteFree js feature age gender) : dayFree (lineHead js feature age gender) := by
  obtain ⟨hf, ha, hg⟩ := hq
  unfold lineHead
  refine dayFree_append (dayFree_append (dayFree_select _ hf) ?_) ?_
  · cases h : given age with
    | none => exact dayFree_empty
    | some a => exact dayFree_age a (ha a h)
  · cases h : given gender with
    | none => exact dayFree_empty
    | some g =>
      obtain ⟨v, hv⟩ := formatGender_ok js (given_some_iff.1 h).2
      simp only [hv]
      exact dayFree_gender v (hg g v h hv)

theorem dayPredicates_after_head {head clause : String} {T : List Token} (hhead : dayFree head)
    (hclause : ∀ rest, lex (Mode.word []) (clause.data ++ rest) = T ++ lex (Mode.word []) rest) :
    dayPredicates (tokens (head ++ clause ++ lineTail))
      = dayPredicates (T ++ [Token.word "GROUP", Token.word "BY", Token.ident "day",
          Token.word "ORDER", Token.word "BY", Token.ident "day", Token.word "ASC;"]) := by
  obtain ⟨H, hH, hHd⟩ := hhead
  have etail : lex (Mode.word []) lineTail.data
      = [Token.word "GROUP", Token.word "BY", Token.ident "day", Token.word "ORDER",
          Token.word "BY", Token.ident "day", Token.word "ASC;"] := rfl
  unfold tokens
  rw [String.data_append, String.data_append, List.append_assoc, hH, hclause, etail, hHd]

theorem lex_between (sd ed : String) (hs : singleQuote ∉ sd.data) (he : singleQuote ∉ ed.data)
    (rest : List Char) :
    lex (Mode.word [])
        ((" AND \"day\" BETWEEN '" ++ sd ++ "' AND '" ++ ed ++ "' ").data ++ rest)
      = [Token.word "AND", Token.ident "day", Token.word "BETWEEN", Token.lit sd,
          Token.word "AND", Token.lit ed] ++ lex (Mode.word []) rest := by
  have e1 : ∀ X, lex (Mode.word []) (" AND \"day\" BETWEEN '".data ++ X)
      = [Token.word "AND", Token.ident "day", Token.word "BETWEEN"] ++ lex (Mode.lit []) X :=
    fun _ => rfl
  simp only [String.data_append, List.append_assoc]
  rw [e1, lex_lit_and sd hs, lex_lit_end ed he]
  rfl

theorem lex_atLeast (sd : String) (hs : singleQuote ∉ sd.data) (rest : List Char) :
    lex (Mode.word []) ((" AND \"day\" >= '" ++ sd ++ "' ").data ++ rest)
      = [Token.word "AND", Token.ident "day", Token.word ">=", Token.lit sd]
        ++ lex (Mode.word []) rest := by
  have e1 : ∀ X, lex (Mode.word []) (" AND \"day\" >= '".data ++ X)
      = [Token.word "AND", Token.ident "day", Token.word ">="] ++ lex (Mode.lit []) X :=
    fun _ => rfl
  simp only [String.data_append, List.append_assoc]
  rw [e1, lex_lit_end sd hs]
  rfl

theorem lex_atMost (ed : String) (he : singleQuote ∉ ed.data) (rest : List Char) :
    lex (Mode.word []) ((" AND \"day\" <= '" ++ ed ++ "' ").data ++ rest)
      = [Token.word "AND", Token.ident "day", Token.word "<=", Token.lit ed]
        ++ lex (Mode.word []) rest := by
  have e1 : ∀ X, lex (Mode.word []) (" AND \"day\" <= '".data ++ X)
      = [Token.word "AND", Token.ident "day", Token.word "<="] ++ lex (Mode.lit []) X :=
    fun _ => rfl
  simp only [String.data_append, List.append_assoc]
  rw [e1, lex_lit_end ed he]
  rfl

theorem specDateClause_both {sd ed : String} (hsd : sd ≠ "") (hed : ed ≠ "") :
    specDateClause (some sd) (some ed)
      = " AND \"day\" BETWEEN '" ++ sd ++ "' AND '" ++ ed ++ "' " := by
  simp [specDateClause, given_of_ne hsd, given_of_ne hed]

theorem specDateClause_start {sd : String} {endDate : Option String} (hsd : sd ≠ "")
    (hed : endDate = none ∨ endDate = some "") :
    specDateClause (some sd) endDate = " AND \"day\" >= '" ++ sd ++ "' " := by
  simp [specDateClause, given_of_ne hsd, given_none_iff.2 hed]

theorem specDateClause_end {startDate : Option String} {ed : String}
    (hsd : startDate = none ∨ startDate = some "") (hed : ed ≠ "") :
    specDateClause startDate (some ed) = " AND \"day\" <= '" ++ ed ++ "' " := by
  simp [specDateClause, given_none_iff.2 hsd, given_of_ne hed]

theorem specDateClause_none {startDate endDate : Option String}
    (hsd : startDate = none ∨ startDate = some "") (hed : endDate = none ∨ endDate = some "") :
    specDateClause startDate endDate = "" := by
  simp [specDateClause, given_none_iff.2 hsd, given_none_iff.2 hed]

set_option maxRecDepth 100000 in
/-- C8 as stated fails: a request that gives only a start date, with a quote in it, gets a
query with two predicates on `day`, `"day" >= '2022-01-01'` and a comparison `"day" <`,
and none of them is a comparison with the start date as given. -/
theorem quoted_start_date_adds_a_day_predicate :
    ∃ q, lineChartQuery asciiJs "a" none none
          (some "2022-01-01' OR \"day\" < '2000-01-01") none = Except.ok q
      ∧ q.text = "\n      SELECT day AS date, SUM(\"a\") AS timeSpent\n      FROM analytics\n      WHERE 1=1\n     AND \"day\" >= '2022-01-01' OR \"day\" < '2000-01-01' GROUP BY \"day\" ORDER BY \"day\" ASC;"
      ∧ dayPredicates (tokens q.text)
        = [DayPredicate.atLeast "2022-01-01", DayPredicate.other "<"] :=
  ⟨_, rfl, by decide, by decide⟩

/-- C8, amended: the date predicate of the line-chart query. With `head` the text built
from the feature, the age and the gender, the text of the query is `head`, at most one date
clause and the `GROUP BY` tail: an inclusive `BETWEEN` on `"day"` when both dates are given,
`"day" >= start` when only the start date is given, `"day" <= end` when only the end date
is given, nothing when neither is given; a date is given when it is a non-empty string.
When no value of the request can close the quotes it is written between, the predicates
on `day` read back from the whole text are exactly that one predicate, with the dates as
its operands, and none when neither date is given. -/
theorem line_date_range_predicate (js : Js) (feature : String) (age gender : Option String) :
    ∃ head : String,
      head = "\n      SELECT day AS date, SUM(\"" ++ js.toLowerCase feature
          ++ "\") AS timeSpent\n      FROM analytics\n      WHERE 1=1\n    "
        ++ (match given age with
          | some a => " AND \"age\" = '" ++ a ++ "' "
          | none => "")
        ++ (match given gender with
          | some g =>
            match formatGender js g with
            | Except.ok v => " AND \"gender\" = '" ++ v ++ "' "
            | Except.error _ => ""
          | none => "")
      ∧ (∀ sd ed : String, sd ≠ "" → ed ≠ "" →
          ∃ q, lineChartQuery js feature age gender (some sd) (some ed) = Except.ok q
            ∧ q = ⟨head ++ " AND \"day\" BETWEEN '" ++ sd ++ "' AND '" ++ ed ++ "' "
                ++ "GROUP BY \"day\" ORDER BY \"day\" ASC;", []⟩
            ∧ (quoteFree js feature age gender → singleQuote ∉ sd.data →
                singleQuote ∉ ed.data →
                dayPredicates (tokens q.text) = [DayPredicate.between sd ed]))
      ∧ (∀ (sd : String) (endDate : Option String), sd ≠ "" →
          (endDate = none ∨ endDate = some "") →
          ∃ q, lineChartQuery js feature age gender (some sd) endDate = Except.ok q
            ∧ q = ⟨head ++ " AND \"day\" >= '" ++ sd ++ "' "
                ++ "GROUP BY \"day\" ORDER BY \"day\" ASC;", []⟩
            ∧ (quoteFree js feature age gender → singleQuote ∉ sd.data →
                dayPredicates (tokens q.text) = [DayPredicate.atLeast sd]))
      ∧ (∀ (startDate : Option String) (ed : String),
          (startDate = none ∨ startDate = some "") → ed ≠ "" →
          ∃ q, lineChartQuery js feature age gender startDate (some ed) = Except.ok q
            ∧ q = ⟨head ++ " AND \"day\" <= '" ++ ed ++ "' "
                ++ "GROUP BY \"day\" ORDER BY \"day\" ASC;", []⟩
            ∧ (quoteFree js feature age gender → singleQuote ∉ ed.data →
                dayPredicates (tokens q.text) = [DayPredicate.atMost ed]))
      ∧ (∀ startDate endDate : Option String,
          (startDate = none ∨ startDate = some "") → (endDate = none ∨ endDate = some "") →
          ∃ q, lineChartQuery js feature age gender startDate endDate = Except.ok q
            ∧ q = ⟨head ++ "GROUP BY \"day\" ORDER BY \"day\" ASC;", []⟩
            ∧ (quoteFree js feature age gender → dayPredicates (tokens q.text) = [])) := by
  refine ⟨lineHead js feature age gender, rfl, ?_, ?_, ?_, ?_⟩
  · intro sd ed hsd hed
    refine ⟨_, lineChartQuery_ok js feature age gender (some sd) (some ed), ?_, ?_⟩
    · simp only [specDateClause_both hsd hed, lineTail, String.append_assoc]
    · intro hq hs he
      show dayPredicates (tokens (lineHead js feature age gender
        ++ specDateClause (some sd) (some ed) ++ lineTail)) = _
      rw [specDateClause_both hsd hed,
        dayPredicates_after_head (dayFree_lineHead js feature age gender hq)
          (lex_between sd ed hs he)]
      rfl
  · intro sd endDate hsd hed
    refine ⟨_, lineChartQuery_ok js feature age gender (some sd) endDate, ?_, ?_⟩
    · simp only [specDateClause_start hsd hed, lineTail, String.append_assoc]
    · intro hq hs
      show dayPredicates (tokens (lineHead js feature age gender
        ++ specDateClause (some sd) endDate ++ lineTail)) = _
      rw [specDateClause_start hsd hed,
        dayPredicates_after_head (dayFree_lineHead js feature age gender hq)
          (lex_atLeast sd hs)]
      rfl
  · intro startDate ed hsd hed
    refine ⟨_, lineChartQuery_ok js feature age gender startDate (some ed), ?_, ?_⟩
    · simp only [specDateClause_end hsd hed, lineTail, String.append_assoc]
    · intro hq he
      show dayPredicates (tokens (lineHead js feature age gender
        ++ specDateClause startDate (some ed) ++ lineTail)) = _
      rw [specDateClause_end hsd hed,
        dayPredicates_after_head (dayFree_lineHead js feature age gender hq)
          (lex_atMost ed he)]
      rfl
  · intro startDate endDate hsd hed
    refine ⟨_, lineChartQuery_ok js feature age gender startDate endDate, ?_, ?_⟩
    · simp [specDateClause_none hsd hed, lineTail]
    · intro hq
      show dayPredicates (tokens (lineHead js feature age gender
        ++ specDateClause startDate endDate ++ lineTail)) = _
      rw [specDateClause_none hsd hed,
        @dayPredicates_after_head _ "" [] (dayFree_lineHead js feature age gender hq)
          (fun _ => rfl)]
      rfl

/-- C8 amended, on a request for October 2022 and on the same request without dates. -/
theorem line_date_range_predicate_witness :
    (∃ q, lineChartQuery asciiJs "A" (some "15-25") none (some "2022-10-01")
          (some "2022-10-31") = Except.ok q
      ∧ dayPredicates (tokens q.text) = [DayPredicate.between "2022-10-01" "2022-10-31"])
    ∧ (∃ q, lineChartQuery asciiJs "A" (some "15-25") none none (some "") = Except.ok q
      ∧ dayPredicates (tokens q.text) = []) := by
  obtain ⟨head, -, hboth, -, -, hnone⟩ :=
    line_date_range_predicate asciiJs "A" (some "15-25") none
  have hq : quoteFree asciiJs "A" (some "15-25") none := by
    refine ⟨by decide, ?_, ?_⟩
    · intro a h
      have e : a = "15-25" := by
        have := (given_some_iff.1 h).1
        simpa using this.symm
      subst e
      decide
    · intro g v h
      simp [given] at h
  obtain ⟨q, h1, -, h2⟩ := hboth "2022-10-01" "2022-10-31" (by decide) (by decide)
  obtain ⟨q2, h3, -, h4⟩ := hnone none (some "") (Or.inl rfl) (Or.inr rfl)
  exact ⟨⟨q, h1, h2 hq (by decide) (by decide)⟩, ⟨q2, h3, h4 hq⟩⟩

theorem dateLt_ne {a b : JsVal} (h : dateLt a b) : a ≠ b := by
  cases a <;> cases b <;> simp only [dateLt] at h
  intro e
  cases e
  exact lt_irrefl _ h

/-- C10: the shape of a line-chart response. For a request with a feature, the query is
built; the response is 404 exactly when the store answers it with zero rows; and when the
store answers with at least one row the response is 200 with the feature and one entry
per row, in the order of the rows, each carrying the date of its row. So when the rows
come in strictly ascending order of day (one row per distinct day), the entries are in
strictly ascending order of date and no date occurs twice. -/
theorem line_response_one_entry_per_row {σ : Type} (js : Js) (db : Db σ) (s : σ) (f : String)
    (age gender startDate endDate : Option String) (hf : f ≠ "") :
    ∃ q, lineChartQuery js f age gender startDate endDate = Except.ok q
      ∧ ((lineChartData js db s (some f) age gender startDate endDate).response.status = 404
          ↔ ∃ s1, db.query s q = Except.ok ([], s1))
      ∧ ∀ (rows : List Row) (s1 : σ), db.query s q = Except.ok (rows, s1) → rows ≠ [] →
          ∃ data,
            (lineChartData js db s (some f) age gender startDate endDate).response
              = ⟨200, Body.line f data, none⟩
            ∧ data.length = rows.length
            ∧ data.map Point.date = rows.map (fun row => row.get "date")
            ∧ (List.Pairwise dateLt (rows.map fun row => row.get "date") →
                List.Pairwise dateLt (data.map Point.date) ∧ (data.map Point.date).Nodup) := by
  refine ⟨_, lineChartQuery_ok js f age gender startDate endDate, ?_, ?_⟩
  · rw [lineChartData_of_query js db s f age gender startDate endDate hf]
    cases hdb : db.query s ⟨lineHead js f age gender ++ specDateClause startDate endDate
        ++ lineTail, []⟩ with
    | error e => simp [lineError]
    | ok res =>
      obtain ⟨rows, s1⟩ := res
      cases rows with
      | nil => simp
      | cons r rs => simp
  · intro rows s1 hdb hrows
    rw [lineChartData_of_query js db s f age gender startDate endDate hf]
    have hlen : ¬ rows.length = 0 := by
      intro h
      exact hrows (List.length_eq_zero.1 h)
    have hdates : (rows.map fun row => (⟨row.get "date", js.parseInt (row.get "timespent")⟩ :
        Point)).map Point.date = rows.map (fun row => row.get "date") := by
      simp [List.map_map, Function.comp_def]
    refine ⟨rows.map fun row => ⟨row.get "date", js.parseInt (row.get "timespent")⟩, ?_, ?_,
      hdates, ?_⟩
    · simp only [hdb, hlen, if_false]
    · simp
    · intro hsorted
      rw [hdates]
      exact ⟨hsorted, hsorted.imp dateLt_ne⟩

/-- C10, on a store that answers with two days in ascending order. -/
theorem line_response_one_entry_per_row_witness :
    ∃ data,
      (lineChartData asciiJs
          (fixedDb [[("date", JsVal.date 19269), ("timespent", JsVal.str "120")],
            [("date", JsVal.date 19270), ("timespent", JsVal.str "75")]])
          () (some "A") none none none none).response
        = ⟨200, Body.line "A" data, none⟩
      ∧ data.length = 2
      ∧ List.Pairwise dateLt (data.map Point.date) := by
  obtain ⟨q, hq, -, hrows⟩ := line_response_one_entry_per_row asciiJs
    (fixedDb [[("date", JsVal.date 19269), ("timespent", JsVal.str "120")],
      [("date", JsVal.date 19270), ("timespent", JsVal.str "75")]])
    () "A" none none none none (by decide)
  obtain ⟨data, hresp, hlen, -, hsorted⟩ := hrows _ () rfl (by simp)
  exact ⟨data, hresp, hlen, (hsorted (by decide)).1⟩

/-- C1, evaluated: two line-chart requests for feature `a` that both supply only an age,
`1` and `2`, hand the store different texts, each with its age between quotes inside the
text, and no bound parameter. -/
theorem line_query_text_carries_filter_values :
    ∃ q1 q2,
      lineChartQuery asciiJs "a" (some "1") none none none = Except.ok q1
      ∧ lineChartQuery asciiJs "a" (some "2") none none none = Except.ok q2
      ∧ q1.text = "\n      SELECT day AS date, SUM(\"a\") AS timeSpent\n      FROM analytics\n      WHERE 1=1\n     AND \"age\" = '1' GROUP BY \"day\" ORDER BY \"day\" ASC;"
      ∧ q2.text = "\n      SELECT day AS date, SUM(\"a\") AS timeSpent\n      FROM analytics\n      WHERE 1=1\n     AND \"age\" = '2' GROUP BY \"day\" ORDER BY \"day\" ASC;"
      ∧ q1.text ≠ q2.text
      ∧ q1.params = [] ∧ q2.params = [] :=
  ⟨_, _, rfl, rfl, by decide, by decide, by decide, rfl, rfl⟩

/-- C3 as stated fails: for the feature `z`, which is none of `A`..`F`, the handler queries
the store once; the response is 500 when the store throws and 200 when it returns a row,
not 400. -/
theorem unsupported_feature_reaches_store :
    ¬ isMeasure asciiJs "z"
    ∧ (lineChartData asciiJs failingDb () (some "z") none none none none).response.status = 500
    ∧ (lineChartData asciiJs failingDb () (some "z") none none none none).issued.length = 1
    ∧ (lineChartData asciiJs (fixedDb [[("date", JsVal.date 19269), ("timespent", JsVal.str "1")]])
        () (some "z") none none none none).response.status = 200
    ∧ (lineChartData asciiJs (fixedDb [[("date", JsVal.date 19269), ("timespent", JsVal.str "1")]])
        () (some "z") none none none none).issued.length = 1 := by
  refine ⟨by decide, ?_, ?_, ?_, ?_⟩ <;>
    simp [lineChartData_of_query, failingDb, fixedDb, lineError]

/-- C3, amended: a non-empty feature is not checked against the six measures. For every
request with a non-empty feature, one of `A`..`F` or not, the handler queries the store
exactly once, with a text that selects the sum of the column named by the lower-cased
feature, and the response is never 400: it is 500 when the store throws, 404 when it
returns zero rows and 200 when it returns rows. -/
theorem line_feature_is_not_checked {σ : Type} (js : Js) (db : Db σ) (s : σ) (f : String)
    (age gender startDate endDate : Option String) (hf : f ≠ "") :
    ∃ q, lineChartQuery js f age gender startDate endDate = Except.ok q
      ∧ (∃ rest, q.text = "\n      SELECT day AS date, SUM(\"" ++ js.toLowerCase f
            ++ "\") AS timeSpent\n      FROM analytics\n      WHERE 1=1\n    " ++ rest)
      ∧ (lineChartData js db s (some f) age gender startDate endDate).issued = [q]
      ∧ (lineChartData js db s (some f) age gender startDate endDate).response.status ≠ 400
      ∧ (∀ e, db.query s q = Except.error e →
          (lineChartData js db s (some f) age gender startDate endDate).response.status = 500)
      ∧ (∀ s1, db.query s q = Except.ok ([], s1) →
          (lineChartData js db s (some f) age gender startDate endDate).response.status = 404)
      ∧ (∀ r rs s1, db.query s q = Except.ok (r :: rs, s1) →
          (lineChartData js db s (some f) age gender startDate endDate).response.status = 200) := by
  refine ⟨_, lineChartQuery_ok js f age gender startDate endDate, ?_, ?_, ?_, ?_, ?_, ?_⟩
  · refine ⟨(match given age with
        | some a => " AND \"age\" = '" ++ a ++ "' "
        | none => "")
      ++ (match given gender with
        | some g =>
          match formatGender js g with
          | Except.ok v => " AND \"gender\" = '" ++ v ++ "' "
          | Except.error _ => ""
        | none => "") ++ specDateClause startDate endDate ++ lineTail, ?_⟩
    simp only [lineHead, String.append_assoc]
  all_goals rw [lineChartData_of_query js db s f age gender startDate endDate hf]
  · cases hdb : db.query s ⟨lineHead js f age gender ++ specDateClause startDate endDate
        ++ lineTail, []⟩ with
    | error e => rfl
    | ok res =>
      obtain ⟨rows, s1⟩ := res
      cases rows <;> rfl
  · cases hdb : db.query s ⟨lineHead js f age gender ++ specDateClause startDate endDate
        ++ lineTail, []⟩ with
    | error e => simp [lineError]
    | ok res =>
      obtain ⟨rows, s1⟩ := res
      cases rows <;> simp
  · intro e he
    simp [he, lineError]
  · intro s1 he
    simp [he]
  · intro r rs s1 he
    simp [he]

/-- C3 amended, on the feature `z` against a store that throws on it. -/
theorem line_feature_is_not_checked_witness :
    ¬ isMeasure asciiJs "z"
    ∧ ∃ q, (lineChartData asciiJs failingDb () (some "z") none none none none).issued = [q]
      ∧ (lineChartData asciiJs failingDb () (some "z") none none none none).response.status
        = 500 := by
  obtain ⟨q, -, -, hissued, -, herror, -, -⟩ :=
    line_feature_is_not_checked asciiJs failingDb () "z" none none none none (by decide)
  exact ⟨by decide, q, hissued, herror "connection refused" rfl⟩

/-! ## Gender formatting -/

set_option maxRecDepth 100000 in
/-- C4 as stated fails: `male` and `MALE` are equal up to letter case, yet the bar handler
binds `Male` for the first and `MALE` for the second, and the line-chart handler builds
different texts for them. -/
theorem gender_case_of_later_letters_is_kept :
    (∃ q1 q2, barQuery asciiJs none (some "male") none none = Except.ok q1
      ∧ barQuery asciiJs none (some "MALE") none none = Except.ok q2
      ∧ q1.params = ["Male"] ∧ q2.params = ["MALE"] ∧ q1 ≠ q2)
    ∧ (∃ q1 q2, lineChartQuery asciiJs "a" none (some "male") none none = Except.ok q1
      ∧ lineChartQuery asciiJs "a" none (some "MALE") none none = Except.ok q2
      ∧ q1 ≠ q2) :=
  ⟨⟨_, _, rfl, rfl, by decide, by decide, by decide⟩, ⟨_, _, rfl, rfl, by decide⟩⟩

/-- C4, amended: the gender is formatted by upper-casing its first character and keeping
the rest as given. For two gender inputs with the same rest whose first characters (in the
Basic Multilingual Plane) have the same upper-case form, as `male` and `Male`, the value
used in the gender predicate is the same, the upper-cased first character followed by the
rest, and both data handlers build the same query for the two when all other inputs are
equal. -/
theorem gender_first_letter_is_capitalized (js : Js) (c1 c2 : Char) (rest : List Char)
    (feature : String) (age startDate endDate : Option String)
    (h1 : c1.val < 0x10000) (h2 : c2.val < 0x10000)
    (hup : js.toUpperCase (String.singleton c1) = js.toUpperCase (String.singleton c2)) :
    formatGender js (String.mk (c1 :: rest))
        = Except.ok (js.toUpperCase (String.singleton c1) ++ String.mk rest)
    ∧ formatGender js (String.mk (c2 :: rest))
        = Except.ok (js.toUpperCase (String.singleton c1) ++ String.mk rest)
    ∧ barQuery js age (some (String.mk (c1 :: rest))) startDate endDate
        = barQuery js age (some (String.mk (c2 :: rest))) startDate endDate
    ∧ lineChartQuery js feature age (some (String.mk (c1 :: rest))) startDate endDate
        = lineChartQuery js feature age (some (String.mk (c2 :: rest))) startDate endDate := by
  have e1 : formatGender js (String.mk (c1 :: rest))
      = Except.ok (js.toUpperCase (String.singleton c1) ++ String.mk rest) := by
    simp [formatGender, h1]
  have e2 : formatGender js (String.mk (c2 :: rest))
      = Except.ok (js.toUpperCase (String.singleton c1) ++ String.mk rest) := by
    simp [formatGender, h2, hup]
  have n1 : String.mk (c1 :: rest) ≠ "" := by
    intro h
    have := congrArg String.data h
    simp at this
  have n2 : String.mk (c2 :: rest) ≠ "" := by
    intro h
    have := congrArg String.data h
    simp at this
  refine ⟨e1, e2, ?_, ?_⟩
  · simp only [barQuery, given_of_ne n1, given_of_ne n2, e1, e2]
  · simp only [lineChartQuery, given_of_ne n1, given_of_ne n2, e1, e2]

/-- C4 amended, on `male` and `Male`: both are bound as `Male`. -/
theorem gender_first_letter_is_capitalized_witness :
    formatGender asciiJs "male" = Except.ok "Male"
    ∧ formatGender asciiJs "Male" = Except.ok "Male"
    ∧ barQuery asciiJs none (some "male") none none
        = barQuery asciiJs none (some "Male") none none
    ∧ lineChartQuery asciiJs "a" none (some "male") none none
        = lineChartQuery asciiJs "a" none (some "Male") none none :=
  gender_first_letter_is_capitalized asciiJs 'm' 'M' ['a', 'l', 'e'] "a" none none none
    (by decide) (by decide) (by decide)

/-! ## Validation before store access -/

theorem signup_fields_required {σ : Type} (cr : Crypto) (db : Db σ) (s : σ)
    (username password : Option String)
    (h : given username = none ∨ given password = none) :
    signup cr db s username password = ⟨fieldsRequired, [], s⟩ := by
  unfold signup
  rcases h with h | h
  · rw [h]
  · rw [h]
    cases given username <;> rfl

theorem login_fields_required {σ : Type} (cr : Crypto) (db : Db σ) (s : σ)
    (username password : Option String)
    (h : given username = none ∨ given password = none) :
    login cr db s username password = ⟨fieldsRequired, [], s⟩ := by
  unfold login
  rcases h with h | h
  · rw [h]
  · rw [h]
    cases given username <;> rfl

/-- C9: validation errors are rejected before any store access. A line-chart request whose
feature is missing or empty, and a sign-up or login request whose username or password is
missing or empty, are answered 400 without any query being handed to the store. -/
theorem validation_rejected_before_store_access {σ : Type} (js : Js) (cr : Crypto) (db : Db σ)
    (s : σ) :
    (∀ feature age gender startDate endDate : Option String,
      (feature = none ∨ feature = some "") →
      (lineChartData js db s feature age gender startDate endDate).response.status = 400
      ∧ (lineChartData js db s feature age gender startDate endDate).issued = [])
    ∧ (∀ username password : Option String,
      (username = none ∨ username = some "" ∨ password = none ∨ password = some "") →
      (signup cr db s username password).response.status = 400
      ∧ (signup cr db s username password).issued = []
      ∧ (login cr db s username password).response.status = 400
      ∧ (login cr db s username password).issued = []) := by
  constructor
  · intro feature age gender startDate endDate hf
    simp [lineChartData, given_none_iff.2 hf]
  · intro username password h
    have h2 : given username = none ∨ given password = none := by
      rcases h with h | h | h | h
      · exact Or.inl (given_none_iff.2 (Or.inl h))
      · exact Or.inl (given_none_iff.2 (Or.inr h))
      · exact Or.inr (given_none_iff.2 (Or.inl h))
      · exact Or.inr (given_none_iff.2 (Or.inr h))
    rw [signup_fields_required cr db s username password h2,
      login_fields_required cr db s username password h2]
    simp [fieldsRequired]

/-- C9, on requests without a feature and with an empty password. -/
theorem validation_rejected_before_store_access_witness :
    ((lineChartData asciiJs failingDb () none (some "15-25") none none none).response.status = 400
      ∧ (lineChartData asciiJs failingDb () none (some "15-25") none none none).issued = [])
    ∧ ((signup plainCrypto memDb [] (some "alice") (some "")).response.status = 400
      ∧ (signup plainCrypto memDb [] (some "alice") (some "")).issued = []
      ∧ (login plainCrypto memDb [] (some "alice") (some "")).response.status = 400
      ∧ (login plainCrypto memDb [] (some "alice") (some "")).issued = []) :=
  ⟨(validation_rejected_before_store_access asciiJs plainCrypto failingDb ()).1
      none (some "15-25") none none none (Or.inl rfl),
    (validation_rejected_before_store_access asciiJs plainCrypto memDb []).2
      (some "alice") (some "") (Or.inr (Or.inr (Or.inr rfl)))⟩

/-! ## Authentication -/

/-- C5: login does not tell an unknown username from a wrong password. For a non-empty
username and password, the response when the store has no row for the username and the
response when it has one but the password comparison fails are the same response: status
400, the message `Invalid credentials.`, and no cookie set. -/
theorem login_enumeration_resistance {σ : Type} (cr : Crypto) (db : Db σ)
    (sAbsent sPresent tAbsent tPresent : σ) (u p : String) (row : Row) (rows : List Row)
    (hu : u ≠ "") (hp : p ≠ "")
    (habsent : db.query sAbsent (selectUser u) = Except.ok ([], tAbsent))
    (hpresent : db.query sPresent (selectUser u) = Except.ok (row :: rows, tPresent))
    (hwrong : cr.compare p (row.get "password") = Except.ok false) :
    (login cr db sAbsent (some u) (some p)).response
        = (login cr db sPresent (some u) (some p)).response
    ∧ (login cr db sAbsent (some u) (some p)).response
        = ⟨400, Body.message "Invalid credentials.", none⟩
    ∧ (login cr db sPresent (some u) (some p)).response
        = ⟨400, Body.message "Invalid credentials.", none⟩ := by
  have e1 : (login cr db sAbsent (some u) (some p)).response = invalidCredentials := by
    simp only [login, given_of_ne hu, given_of_ne hp, habsent]
  have e2 : (login cr db sPresent (some u) (some p)).response = invalidCredentials := by
    simp only [login, given_of_ne hu, given_of_ne hp, hpresent, hwrong]
  exact ⟨e1.trans e2.symm, e1, e2⟩

/-- C5, on the user table: `alice` is not registered in the first store and is registered
with another password in the second. -/
theorem login_enumeration_resistance_witness :
    (login plainCrypto memDb [] (some "alice") (some "wrong")).response
        = (login plainCrypto memDb [⟨1, "alice", "bcrypt:pw123"⟩] (some "alice")
            (some "wrong")).response
    ∧ (login plainCrypto memDb [] (some "alice") (some "wrong")).response
        = ⟨400, Body.message "Invalid credentials.", none⟩
    ∧ (login plainCrypto memDb [⟨1, "alice", "bcrypt:pw123"⟩] (some "alice")
          (some "wrong")).response
        = ⟨400, Body.message "Invalid credentials.", none⟩ :=
  login_enumeration_resistance plainCrypto memDb [] [⟨1, "alice", "bcrypt:pw123"⟩]
    [] [⟨1, "alice", "bcrypt:pw123"⟩] "alice" "wrong"
    (User.row ⟨1, "alice", "bcrypt:pw123"⟩) [] (by decide) (by decide) rfl rfl rfl

theorem memDb_select (users : List User) (u : String) :
    memDb.query users (selectUser u)
      = Except.ok ((users.filter fun r => r.username = u).map User.row, users) := by
  simp [memDb, selectUser]

theorem memDb_insert (users : List User) (u h : String) :
    memDb.query users (insertUser u h)
      = Except.ok ([], users ++ [⟨freshId users, u, h⟩]) := by
  simp [memDb, insertUser]

/-- C6: sign-up twice with the same username. On the user table as a list of records, for
a non-empty username that no record of the starting table has and non-empty passwords,
the first sign-up answers 201 and adds one record, the second answers 400 with the message
`Username already exists.` and adds none, and the table then holds exactly one record
with that username. -/
theorem signup_twice_same_username (cr : Crypto) (users : List User) (u p1 p2 : String)
    (hu : u ≠ "") (hp1 : p1 ≠ "") (hp2 : p2 ≠ "")
    (hfresh : ∀ r ∈ users, r.username ≠ u) :
    (signup cr memDb users (some u) (some p1)).response
        = ⟨201, Body.message "User registered successfully.", none⟩
    ∧ (signup cr memDb (signup cr memDb users (some u) (some p1)).store (some u)
          (some p2)).response
        = ⟨400, Body.message "Username already exists.", none⟩
    ∧ (signup cr memDb (signup cr memDb users (some u) (some p1)).store (some u)
          (some p2)).store
        = users ++ [⟨freshId users, u, cr.hash p1⟩]
    ∧ ((signup cr memDb (signup cr memDb users (some u) (some p1)).store (some u)
          (some p2)).store.filter fun r => r.username = u).length = 1 := by
  have hnone : (users.filter fun r => r.username = u) = [] := by
    rw [List.filter_eq_nil_iff]
    intro r hr
    simpa using hfresh r hr
  have hfirst : signup cr memDb users (some u) (some p1)
      = ⟨⟨201, Body.message "User registered successfully.", none⟩,
          [selectUser u, insertUser u (cr.hash p1)],
          users ++ [⟨freshId users, u, cr.hash p1⟩]⟩ := by
    simp [signup, given_of_ne hu, given_of_ne hp1, memDb_select, memDb_insert, hnone]
  have hone : ((users ++ [(⟨freshId users, u, cr.hash p1⟩ : User)]).filter
      fun r => r.username = u) = [⟨freshId users, u, cr.hash p1⟩] := by
    simp [List.filter_append, hnone]
  have hsecond : signup cr memDb (users ++ [⟨freshId users, u, cr.hash p1⟩]) (some u) (some p2)
      = ⟨⟨400, Body.message "Username already exists.", none⟩, [selectUser u],
          users ++ [⟨freshId users, u, cr.hash p1⟩]⟩ := by
    simp [signup, given_of_ne hu, given_of_ne hp2, memDb_select, hone]
  rw [hfirst]
  dsimp only
  rw [hsecond]
  exact ⟨rfl, rfl, rfl, by rw [hone]; rfl⟩

/-- C6, on the example of the specification: `alice` registers with `pw123`, then with
`pw456`. -/
theorem signup_twice_same_username_witness :
    (signup plainCrypto memDb [] (some "alice") (some "pw123")).response
        = ⟨201, Body.message "User registered successfully.", none⟩
    ∧ (signup plainCrypto memDb (signup plainCrypto memDb [] (some "alice") (some "pw123")).store
          (some "alice") (some "pw456")).response
        = ⟨400, Body.message "Username already exists.", none⟩
    ∧ (signup plainCrypto memDb (signup plainCrypto memDb [] (some "alice") (some "pw123")).store
          (some "alice") (some "pw456")).store
        = [] ++ [⟨freshId [], "alice", plainCrypto.hash "pw123"⟩]
    ∧ ((signup plainCrypto memDb
          (signup plainCrypto memDb [] (some "alice") (some "pw123")).store
          (some "alice") (some "pw456")).store.filter fun r => r.username = "alice").length = 1 :=
  signup_twice_same_username plainCrypto [] "alice" "pw123" "pw456"
    (by decide) (by decide) (by decide) (by simp)

end Dashboard
